import Mathlib

/-!
Verification of the network layer of the kuka_drivers repository.

Two components are embedded here:

* `kuka_sunrise_fri_driver.FRIConnection` — the synchronous command/response
  channel of `src/kuka_sunrise_fri_driver/src/connection_helpers/fri_connection.cpp`,
  embedded as a record of the member fields of the C++ class plus an explicit
  event trace (`ChannelEvent`) recording transmissions, condition-variable
  notifications, transport open attempts and detached handler spawns.
  The blocking `cv_.wait` of `sendCommandAndWait` is embedded by passing in the
  received chunk whose handling resolves the wait; an out-of-bounds vector
  read (undefined behavior in the C++) is embedded as the result `none`.

* `kuka.rsi` — the asynchronous UDP datagram server of
  `src/kuka_kss_rsi_driver/include/kuka_kss_rsi_driver/generic_udp_server.h`.
  Only the header (declarations) of this class is in the repository snapshot,
  so the receive loop is modelled from the spec (see the doc comments there).
-/

namespace kuka_sunrise_fri_driver

/-- A wire byte (values 0..255; only equality on small tag values matters). -/
abbrev Byte := Nat

/-- Modelled from the spec: the header `fri_connection.hpp`, which declares the
numeric values of the `CommandState` enumeration, is not part of the snapshot
under `src/`. The spec (§6, outcome wire format) fixes five distinct outcome
tags; only their distinctness is ever used below, so arbitrary distinct byte
values are chosen. -/
def ACCEPTED : Byte := 1

/-- `CommandState` tag for a rejected command (see `ACCEPTED` for provenance). -/
def REJECTED : Byte := 2

/-- `CommandState` tag for an unrecognized outcome (see `ACCEPTED`). -/
def UNKNOWN : Byte := 3

/-- `CommandState` tag for a control-session-ended event (see `ACCEPTED`). -/
def ERROR_CONTROL_ENDED : Byte := 4

/-- `CommandState` tag for a streaming(FRI)-session-ended event (see `ACCEPTED`). -/
def ERROR_FRI_ENDED : Byte := 5

/-- Modelled from the spec: `CommandID` values come from the missing header
`fri_connection.hpp`; distinct byte values chosen arbitrarily. -/
def CONNECT : Byte := 10

/-- `CommandID` for Disconnect (see `CONNECT` for provenance). -/
def DISCONNECT : Byte := 11

/-- `CommandID` for StartStreaming (start FRI). -/
def START_FRI : Byte := 12

/-- `CommandID` for StopStreaming (end FRI). -/
def END_FRI : Byte := 13

/-- `CommandID` for ActivateControl. -/
def ACTIVATE_CONTROL : Byte := 14

/-- `CommandID` for DeactivateControl. -/
def DEACTIVATE_CONTROL : Byte := 15

/-- `CommandID` for SetControlMode. -/
def SET_CONTROL_MODE : Byte := 16

/-- `CommandID` for SetCommandMode. -/
def SET_COMMAND_MODE : Byte := 17

/-- `CommandID` for SetConfig (FRI link configuration). -/
def SET_FRI_CONFIG : Byte := 18

/-- Modelled from the spec: `CommandSuccess` success flag value, from the
missing header `fri_connection.hpp`. -/
def SUCCESS : Byte := 1

/-- `CommandSuccess` failure flag value (see `SUCCESS`). -/
def NO_SUCCESS : Byte := 0

/-- The member fields of class `FRIConnection` that the embedded operations
touch: the last-outcome record (`last_command_state_`, `last_command_id_`,
`last_command_success_`), the awaiting/received flags, and the owned
transport `tcp_connection_` (a `unique_ptr`, embedded as `Option Nat` where
the `Nat` is an opaque handle identifying the transport instance and `none`
is the null pointer). -/
structure FRIConnection where
  last_command_state : Byte
  last_command_id : Byte
  last_command_success : Byte
  answer_wanted : Bool
  answer_received : Bool
  tcp_connection : Option Nat
  deriving Repr, DecidableEq

/-- The field values established by the `FRIConnection` constructor
(initializer list, fri_connection.cpp lines 30-33), with no transport open. -/
def initState : FRIConnection :=
  { last_command_state := ACCEPTED
    last_command_id := CONNECT
    last_command_success := NO_SUCCESS
    answer_wanted := false
    answer_received := false
    tcp_connection := none }

/-- Observable effects of the channel code, recorded as a trace:
`openAttempt` is the construction of a new `TCPConnection(addr, port, ...)`
(the address is embedded as an opaque `Nat` token for the `const char *`),
`sendBytes` a `sendByte`/`sendBytes` call on the transport, `closeConnection`
a `closeConnection` call, `notifyOne` a `cv_.notify_one()`, and the two
`spawn...` events a `pthread_create` + `pthread_detach` of the corresponding
registered error callback. -/
inductive ChannelEvent where
  | openAttempt (server_addr : Nat) (server_port : Int)
  | sendBytes (bytes : List Byte)
  | closeConnection
  | notifyOne
  | spawnControlEndedHandler
  | spawnFRIEndedHandler
  deriving Repr, DecidableEq

/-- The payloads transmitted over the transport in a trace, in order. -/
def bytesSent (evs : List ChannelEvent) : List (List Byte) :=
  evs.filterMap fun e =>
    match e with
    | ChannelEvent.sendBytes bs => some bs
    | _ => none

/-- The transport open attempts (address token, port) in a trace, in order. -/
def openAttempts (evs : List ChannelEvent) : List (Nat × Int) :=
  evs.filterMap fun e =>
    match e with
    | ChannelEvent.openAttempt a p => some (a, p)
    | _ => none

/-- `FRIConnection::handleReceivedTCPData` (fri_connection.cpp lines 202-275).
Returns the updated member fields and the events emitted, or `none` when the
C++ indexes the `data` vector out of bounds (the fall-through after the empty
`data.size() < 3` / `< 2` TODO branches in the `ACCEPTED`/`REJECTED` cases),
which is undefined behavior. An empty chunk returns before the switch. -/
def handleReceivedTCPData (s : FRIConnection) (data : List Byte) :
    Option (FRIConnection × List ChannelEvent) :=
  match data with
  | [] => some (s, [])
  | tag :: rest =>
    if tag = ACCEPTED then
      match rest with
      | cid :: suc :: _ =>
        some ({ s with last_command_state := ACCEPTED, last_command_id := cid,
                       last_command_success := suc, answer_received := true },
              [ChannelEvent.notifyOne])
      | _ => none
    else if tag = REJECTED then
      match rest with
      | cid :: _ =>
        some ({ s with last_command_state := REJECTED, last_command_id := cid,
                       answer_received := true },
              [ChannelEvent.notifyOne])
      | _ => none
    else if tag = UNKNOWN then
      some ({ s with last_command_state := UNKNOWN, answer_received := true },
            [ChannelEvent.notifyOne])
    else if tag = ERROR_CONTROL_ENDED then
      if s.answer_wanted then
        some ({ s with last_command_state := ERROR_CONTROL_ENDED,
                       answer_received := true },
              [ChannelEvent.notifyOne])
      else
        some (s, [ChannelEvent.spawnControlEndedHandler])
    else if tag = ERROR_FRI_ENDED then
      if s.answer_wanted then
        some ({ s with last_command_state := ERROR_FRI_ENDED,
                       answer_received := true },
              [ChannelEvent.notifyOne])
      else
        some (s, [ChannelEvent.spawnFRIEndedHandler])
    else
      some ({ s with last_command_state := UNKNOWN, answer_received := true },
            [ChannelEvent.notifyOne])

/-- `FRIConnection::assertLastCommandSuccess` (lines 159-169). -/
def assertLastCommandSuccess (s : FRIConnection) (command_id : Byte) : Bool :=
  if s.last_command_state = ACCEPTED ∧ s.last_command_id = command_id ∧
     s.last_command_success = SUCCESS
  then true else false

/-- `FRIConnection::sendCommandAndWait(CommandID)` (lines 171-182): sets
`answer_wanted_`, transmits the single command byte, waits on `cv_` until
`answer_received_`, clears both flags and returns `assertLastCommandSuccess`.
The wait is embedded by passing the received chunk whose handling resolves it;
the result is `none` when the transport is null (`sendByte` on a null
`unique_ptr` is undefined behavior), when handling the chunk is undefined
behavior, or when the chunk does not set `answer_received_` (the wait would
continue blocking). -/
def sendCommandAndWait (command_id : Byte) (s : FRIConnection)
    (chunk : List Byte) : Option (Bool × FRIConnection × List ChannelEvent) :=
  match s.tcp_connection with
  | none => none
  | some _ =>
    match handleReceivedTCPData { s with answer_wanted := true } chunk with
    | none => none
    | some (s2, evs) =>
      if s2.answer_received then
        some (assertLastCommandSuccess
                { s2 with answer_received := false, answer_wanted := false }
                command_id,
              { s2 with answer_received := false, answer_wanted := false },
              ChannelEvent.sendBytes [command_id] :: evs)
      else none

/-- `FRIConnection::sendCommandAndWait(CommandID, const vector<uint8_t>&)`
(lines 184-200): identical to the single-byte overload except that the
transmitted message is the command byte followed by the payload bytes. -/
def sendCommandAndWaitData (command_id : Byte) (command_data : List Byte)
    (s : FRIConnection) (chunk : List Byte) :
    Option (Bool × FRIConnection × List ChannelEvent) :=
  match s.tcp_connection with
  | none => none
  | some _ =>
    match handleReceivedTCPData { s with answer_wanted := true } chunk with
    | none => none
    | some (s2, evs) =>
      if s2.answer_received then
        some (assertLastCommandSuccess
                { s2 with answer_received := false, answer_wanted := false }
                command_id,
              { s2 with answer_received := false, answer_wanted := false },
              ChannelEvent.sendBytes (command_id :: command_data) :: evs)
      else none

/-- `FRIConnection::isConnected` (lines 149-156). -/
def isConnected (s : FRIConnection) : Bool :=
  s.tcp_connection.isSome

/-- `FRIConnection::connect` (lines 42-60): constructs a new `TCPConnection`
(assigning it to `tcp_connection_`, which destroys any previously owned
transport); a constructor throw is caught and resets `tcp_connection_` to
null. `openResult` embeds that construction: `some t` is a fresh transport
handle, `none` a throw. Then, if not connected, returns false; otherwise
submits `CONNECT` and waits. -/
def connect (server_addr : Nat) (server_port : Int) (s : FRIConnection)
    (openResult : Option Nat) (chunk : List Byte) :
    Option (Bool × FRIConnection × List ChannelEvent) :=
  match openResult with
  | none =>
    some (false, { s with tcp_connection := none },
          [ChannelEvent.openAttempt server_addr server_port])
  | some t =>
    if isConnected { s with tcp_connection := some t } then
      match sendCommandAndWait CONNECT { s with tcp_connection := some t } chunk with
      | none => none
      | some (b, s2, evs) =>
        some (b, s2, ChannelEvent.openAttempt server_addr server_port :: evs)
    else
      some (false, { s with tcp_connection := some t },
            [ChannelEvent.openAttempt server_addr server_port])

/-- `FRIConnection::disconnect` (lines 62-72): returns true immediately when
no transport is owned; otherwise submits `DISCONNECT` and waits, and on
success closes and releases the transport. -/
def disconnect (s : FRIConnection) (chunk : List Byte) :
    Option (Bool × FRIConnection × List ChannelEvent) :=
  match s.tcp_connection with
  | none => some (true, s, [])
  | some _ =>
    match sendCommandAndWait DISCONNECT s chunk with
    | none => none
    | some (b, s1, evs) =>
      if b then
        some (true, { s1 with tcp_connection := none },
              evs ++ [ChannelEvent.closeConnection])
      else
        some (false, s1, evs)

/-- `FRIConnection::connectionLostCallback` (lines 277-281): the body is a
`printf` followed by a single call `connect(server_addr, server_port)` whose
result is discarded; there is no loop and no retry. The first component of
the result lists the `(address, port)` arguments of each `connect` invocation
the body makes, in order. -/
def connectionLostCallback (server_addr : Nat) (server_port : Int)
    (s : FRIConnection) (openResult : Option Nat) (chunk : List Byte) :
    List (Nat × Int) × Option (Bool × FRIConnection × List ChannelEvent) :=
  ([(server_addr, server_port)],
   connect server_addr server_port s openResult chunk)

/-- A channel with a transport open (handle 0) and all other fields as after
construction. -/
def connectedState : FRIConnection :=
  { initState with tcp_connection := some 0 }

/-- A channel with a transport open that is already awaiting an outcome
(`answer_wanted_` set): one command is outstanding. -/
def awaitingState : FRIConnection :=
  { initState with answer_wanted := true, tcp_connection := some 0 }

/-- The fields after a successful `sendCommandAndWait(START_FRI)` resolved by
an `Accepted(START_FRI, success)` outcome. -/
def afterStartState : FRIConnection :=
  { last_command_state := ACCEPTED
    last_command_id := START_FRI
    last_command_success := SUCCESS
    answer_wanted := false
    answer_received := false
    tcp_connection := some 0 }

/-- The fields after a successful `disconnect` from `connectedState`. -/
def afterDisconnectState : FRIConnection :=
  { last_command_state := ACCEPTED
    last_command_id := DISCONNECT
    last_command_success := SUCCESS
    answer_wanted := false
    answer_received := false
    tcp_connection := none }

/-- The fields after a successful `connect` from `initState` with transport
handle 0. -/
def afterConnectState : FRIConnection :=
  { last_command_state := ACCEPTED
    last_command_id := CONNECT
    last_command_success := SUCCESS
    answer_wanted := false
    answer_received := false
    tcp_connection := some 0 }

/-- The fields after a `connect` over a fresh transport (handle 5) whose
`CONNECT` command was rejected by the peer. -/
def rejectedConnectState : FRIConnection :=
  { last_command_state := REJECTED
    last_command_id := CONNECT
    last_command_success := NO_SUCCESS
    answer_wanted := false
    answer_received := false
    tcp_connection := some 5 }

end kuka_sunrise_fri_driver

namespace kuka.rsi

/-- Modelled from the spec: the implementation file of `UDPServer` is not
under `src/` (only the header `generic_udp_server.h`, lines 92-117, declaring
`startAsynchronousReceive`, `receiveCallback` and `sendCallback`, is).
One arrival at the socket, following spec §4.2: either a datagram received
with no transport-level error (source peer and payload bytes), or an arrival
carrying a transport-level error. -/
inductive Arrival where
  | ok (peer : Nat) (data : List Nat)
  | err
  deriving Repr, DecidableEq

/-- Whether an arrival carries no transport-level error. -/
def Arrival.isOk : Arrival → Bool
  | Arrival.ok _ _ => true
  | Arrival.err => false

/-- Observable effects of the datagram server: a synchronous invocation of
the registered callback on a received datagram, the transmission of the reply
to the source peer, and the re-arming of the asynchronous receive. -/
inductive ServerEvent where
  | callbackInvoked (peer : Nat) (data : List Nat)
  | replySent (peer : Nat) (reply : List Nat)
  | rearm
  deriving Repr, DecidableEq

/-- Modelled from the spec: `UDPServer::receiveCallback` (declared at
generic_udp_server.h line 104; its definition is not in the snapshot),
following spec §4.2 steps 2-4: on an arrival with no transport-level error,
invoke the callback synchronously, send its reply to the source peer, and
re-arm the receive on send completion (also on a send error); on an arrival
with a transport-level error, invoke no callback and re-arm the receive. -/
def receiveCallback (consumer : Nat → List Nat → List Nat) (a : Arrival) :
    List ServerEvent :=
  match a with
  | Arrival.ok peer d =>
    [ServerEvent.callbackInvoked peer d,
     ServerEvent.replySent peer (consumer peer d),
     ServerEvent.rearm]
  | Arrival.err => [ServerEvent.rearm]

/-- The event trace of an initialized server processing a sequence of
arrivals: each arrival is handled by `receiveCallback`, and because every
handling re-arms the receive, the next arrival is processed as well. -/
def runServer (consumer : Nat → List Nat → List Nat)
    (arrivals : List Arrival) : List ServerEvent :=
  match arrivals with
  | [] => []
  | a :: rest => receiveCallback consumer a ++ runServer consumer rest

/-- Whether a server event is a callback invocation. -/
def isCallbackInvocation : ServerEvent → Bool
  | ServerEvent.callbackInvoked _ _ => true
  | _ => false

end kuka.rsi

namespace kuka_sunrise_fri_driver

theorem assertLastCommandSuccess_eq_true_iff (s : FRIConnection) (cid : Byte) :
    assertLastCommandSuccess s cid = true ↔
      (s.last_command_state = ACCEPTED ∧ s.last_command_id = cid ∧
       s.last_command_success = SUCCESS) := by
  unfold assertLastCommandSuccess
  split_ifs with hP
  · simp [hP]
  · simp [hP]

set_option linter.unnecessarySeqFocus false in
theorem handleReceivedTCPData_inv (s : FRIConnection) (data : List Byte)
    (s' : FRIConnection) (evs : List ChannelEvent)
    (h : handleReceivedTCPData s data = some (s', evs)) :
    s'.tcp_connection = s.tcp_connection ∧ bytesSent evs = [] ∧
    openAttempts evs = [] := by
  rcases data with _ | ⟨tag, rest⟩
  · simp only [handleReceivedTCPData, Option.some.injEq, Prod.mk.injEq] at h
    obtain ⟨h1, h2⟩ := h
    subst h1
    subst h2
    simp [bytesSent, openAttempts]
  · by_cases h1 : tag = ACCEPTED
    · rcases rest with _ | ⟨cid, _ | ⟨suc, r⟩⟩ <;>
        simp [handleReceivedTCPData, h1] at h <;>
        (rcases h with ⟨rfl, rfl⟩; simp [bytesSent, openAttempts])
    · by_cases h2 : tag = REJECTED
      · rcases rest with _ | ⟨cid, r⟩ <;>
          simp [handleReceivedTCPData, h1, h2] at h <;>
          (rcases h with ⟨rfl, rfl⟩; simp [bytesSent, openAttempts])
      · by_cases h3 : tag = UNKNOWN
        · simp [handleReceivedTCPData, h1, h2, h3] at h
          rcases h with ⟨rfl, rfl⟩
          simp [bytesSent, openAttempts]
        · by_cases h4 : tag = ERROR_CONTROL_ENDED
          · cases hw : s.answer_wanted <;>
              simp [handleReceivedTCPData, h1, h2, h3, h4, hw] at h <;>
              (rcases h with ⟨rfl, rfl⟩; simp [bytesSent, openAttempts])
          · by_cases h5 : tag = ERROR_FRI_ENDED
            · cases hw : s.answer_wanted <;>
                simp [handleReceivedTCPData, h1, h2, h3, h4, h5, hw] at h <;>
                (rcases h with ⟨rfl, rfl⟩; simp [bytesSent, openAttempts])
            · simp [handleReceivedTCPData, h1, h2, h3, h4, h5] at h
              rcases h with ⟨rfl, rfl⟩
              simp [bytesSent, openAttempts]

end kuka_sunrise_fri_driver

namespace kuka_sunrise_fri_driver

theorem sendCommandAndWait_inv (command_id : Byte) (s : FRIConnection)
    (chunk : List Byte) (b : Bool) (s' : FRIConnection)
    (evs : List ChannelEvent)
    (h : sendCommandAndWait command_id s chunk = some (b, s', evs)) :
    b = assertLastCommandSuccess s' command_id ∧
    s'.tcp_connection = s.tcp_connection ∧
    s'.answer_wanted = false ∧ s'.answer_received = false ∧
    bytesSent evs = [[command_id]] ∧ openAttempts evs = [] ∧
    (∃ tail, evs = ChannelEvent.sendBytes [command_id] :: tail) := by
  obtain ⟨lcs, lci, lsu, aw, ar, tc⟩ := s
  rcases tc with _ | t
  · exact Option.noConfusion h
  · unfold sendCommandAndWait at h
    rcases hh : handleReceivedTCPData
        ⟨lcs, lci, lsu, true, ar, some t⟩ chunk with _ | ⟨s2, evs2⟩
    · rw [hh] at h
      exact Option.noConfusion h
    · rw [hh] at h
      dsimp only at h
      obtain ⟨htcp2, hbs2, hoa2⟩ := handleReceivedTCPData_inv _ _ _ _ hh
      cases har : s2.answer_received
      · rw [har] at h
        simp at h
      · rw [har] at h
        simp only [if_true, Option.some.injEq, Prod.mk.injEq] at h
        rcases h with ⟨rfl, rfl, rfl⟩
        refine ⟨rfl, by simpa using htcp2, rfl, rfl, ?_, ?_, ⟨evs2, rfl⟩⟩
        · simp only [bytesSent] at hbs2 ⊢
          simp [List.filterMap_cons, hbs2]
        · simp only [openAttempts] at hoa2 ⊢
          simp [List.filterMap_cons, hoa2]

theorem sendCommandAndWaitData_inv (command_id : Byte)
    (command_data : List Byte) (s : FRIConnection)
    (chunk : List Byte) (b : Bool) (s' : FRIConnection)
    (evs : List ChannelEvent)
    (h : sendCommandAndWaitData command_id command_data s chunk
          = some (b, s', evs)) :
    b = assertLastCommandSuccess s' command_id ∧
    s'.tcp_connection = s.tcp_connection ∧
    s'.answer_wanted = false ∧ s'.answer_received = false ∧
    bytesSent evs = [command_id :: command_data] ∧ openAttempts evs = [] ∧
    (∃ tail, evs = ChannelEvent.sendBytes (command_id :: command_data) :: tail) := by
  obtain ⟨lcs, lci, lsu, aw, ar, tc⟩ := s
  rcases tc with _ | t
  · exact Option.noConfusion h
  · unfold sendCommandAndWaitData at h
    rcases hh : handleReceivedTCPData
        ⟨lcs, lci, lsu, true, ar, some t⟩ chunk with _ | ⟨s2, evs2⟩
    · rw [hh] at h
      exact Option.noConfusion h
    · rw [hh] at h
      dsimp only at h
      obtain ⟨htcp2, hbs2, hoa2⟩ := handleReceivedTCPData_inv _ _ _ _ hh
      cases har : s2.answer_received
      · rw [har] at h
        simp at h
      · rw [har] at h
        simp only [if_true, Option.some.injEq, Prod.mk.injEq] at h
        rcases h with ⟨rfl, rfl, rfl⟩
        refine ⟨rfl, by simpa using htcp2, rfl, rfl, ?_, ?_, ⟨evs2, rfl⟩⟩
        · simp only [bytesSent] at hbs2 ⊢
          simp [List.filterMap_cons, hbs2]
        · simp only [openAttempts] at hoa2 ⊢
          simp [List.filterMap_cons, hoa2]

end kuka_sunrise_fri_driver

namespace kuka_sunrise_fri_driver

/-- C1: for every command identifier, submitted with or without a payload,
`sendCommandAndWait` returns true if and only if the outcome recorded when
the wait resolves (the last-outcome fields of the resulting state) is state
`ACCEPTED` with success flag `SUCCESS` and echoed command identifier equal to
the submitted identifier; any other recorded state, identifier or success
flag makes it return false. -/
theorem C1_sendCommandAndWait_true_iff_accepted :
    ∀ (command_id : Byte) (s : FRIConnection) (chunk : List Byte) (b : Bool)
      (s' : FRIConnection) (evs : List ChannelEvent),
      (sendCommandAndWait command_id s chunk = some (b, s', evs) →
        (b = true ↔ (s'.last_command_state = ACCEPTED ∧
                     s'.last_command_id = command_id ∧
                     s'.last_command_success = SUCCESS))) ∧
      (∀ command_data : List Byte,
        sendCommandAndWaitData command_id command_data s chunk
            = some (b, s', evs) →
          (b = true ↔ (s'.last_command_state = ACCEPTED ∧
                       s'.last_command_id = command_id ∧
                       s'.last_command_success = SUCCESS))) := by
  intro command_id s chunk b s' evs
  constructor
  · intro h
    obtain ⟨hb, -⟩ := sendCommandAndWait_inv _ _ _ _ _ _ h
    rw [hb]
    exact assertLastCommandSuccess_eq_true_iff s' command_id
  · intro command_data h
    obtain ⟨hb, -⟩ := sendCommandAndWaitData_inv _ _ _ _ _ _ _ h
    rw [hb]
    exact assertLastCommandSuccess_eq_true_iff s' command_id

/-- Witness for C1: a concrete run in which `START_FRI` is submitted on a
connected channel and the peer answers `Accepted(START_FRI, success)`. -/
theorem C1_witness :
    (true : Bool) = true ↔
      (afterStartState.last_command_state = ACCEPTED ∧
       afterStartState.last_command_id = START_FRI ∧
       afterStartState.last_command_success = SUCCESS) :=
  (C1_sendCommandAndWait_true_iff_accepted START_FRI connectedState
      [ACCEPTED, START_FRI, SUCCESS] true afterStartState
      [ChannelEvent.sendBytes [START_FRI], ChannelEvent.notifyOne]).1
    (by decide)

/-- C2, behavior of the code at the failing inputs: a chunk whose first byte
is the `ACCEPTED` tag but that is shorter than 3 bytes, or whose first byte
is the `REJECTED` tag but that is shorter than 2 bytes, drives
`handleReceivedTCPData` into the out-of-bounds vector reads `data[1]`/
`data[2]` after the empty TODO branches of the size checks (undefined
behavior, embedded as `none`): the handler neither guarantees the
answer-received flag nor the notification, contradicting the claim. -/
theorem C2_short_accepted_rejected_oob :
    handleReceivedTCPData awaitingState [ACCEPTED] = none ∧
    handleReceivedTCPData awaitingState [ACCEPTED, DISCONNECT] = none ∧
    handleReceivedTCPData awaitingState [REJECTED] = none := by
  decide

/-- C3: a `ControlSessionEnded` (`ERROR_CONTROL_ENDED`) or
`StreamingSessionEnded` (`ERROR_FRI_ENDED`) chunk: while an outcome is
awaited (`answer_wanted_` set) the handler records the session-end state as
the outcome, sets the answer-received flag and notifies the waiter, spawning
no error handler; while no outcome is awaited the state is left unchanged (no
wait is resolved, no notification) and exactly the one corresponding error
handler is spawned, exactly once. -/
theorem C3_session_end_dispatch :
    ∀ (s : FRIConnection) (rest : List Byte),
      handleReceivedTCPData s (ERROR_CONTROL_ENDED :: rest) =
        some (if s.answer_wanted then
                ({ s with last_command_state := ERROR_CONTROL_ENDED,
                          answer_received := true },
                 [ChannelEvent.notifyOne])
              else (s, [ChannelEvent.spawnControlEndedHandler])) ∧
      handleReceivedTCPData s (ERROR_FRI_ENDED :: rest) =
        some (if s.answer_wanted then
                ({ s with last_command_state := ERROR_FRI_ENDED,
                          answer_received := true },
                 [ChannelEvent.notifyOne])
              else (s, [ChannelEvent.spawnFRIEndedHandler])) := by
  intro s rest
  constructor <;> cases hw : s.answer_wanted <;>
    simp [handleReceivedTCPData, ACCEPTED, REJECTED, UNKNOWN,
          ERROR_CONTROL_ENDED, ERROR_FRI_ENDED, hw]

/-- Counterexample to C4 as stated: a channel that is already awaiting an
outcome (`awaitingState`, `answer_wanted_` set) accepts a second
`sendCommandAndWait(START_FRI)` without any assertion or contract failure:
the call transmits the command byte (the `sendBytes` event) and waits, and
behaves exactly as on a channel with no outstanding command
(`connectedState`). -/
theorem C4_counterexample :
    sendCommandAndWait START_FRI awaitingState [ACCEPTED, START_FRI, SUCCESS] =
      some (true, afterStartState,
            [ChannelEvent.sendBytes [START_FRI], ChannelEvent.notifyOne]) ∧
    sendCommandAndWait START_FRI awaitingState [ACCEPTED, START_FRI, SUCCESS] =
      sendCommandAndWait START_FRI connectedState
        [ACCEPTED, START_FRI, SUCCESS] := by
  decide

/-- C4 as amended: the channel performs no check of the awaiting flag at all.
`sendCommandAndWait` begun with `answer_wanted_` already set proceeds
identically to a free channel (it unconditionally re-sets the flag, transmits
the command and waits); keeping at most one command outstanding is the
callers' obligation. -/
theorem C4_no_outstanding_check :
    ∀ (command_id : Byte) (s : FRIConnection) (chunk : List Byte),
      sendCommandAndWait command_id s chunk =
        sendCommandAndWait command_id
          { s with answer_wanted := false } chunk ∧
      ∀ (b : Bool) (s' : FRIConnection) (evs : List ChannelEvent),
        sendCommandAndWait command_id s chunk = some (b, s', evs) →
        ChannelEvent.sendBytes [command_id] ∈ evs := by
  intro command_id s chunk
  constructor
  · rfl
  · intro b s' evs h
    obtain ⟨-, -, -, -, -, -, tail, rfl⟩ :=
      sendCommandAndWait_inv _ _ _ _ _ _ h
    exact List.mem_cons_self _ _

/-- Witness for C4 as amended, at the concrete busy channel of the
counterexample. -/
theorem C4_witness :
    (sendCommandAndWait START_FRI awaitingState
        [ACCEPTED, START_FRI, SUCCESS] =
      sendCommandAndWait START_FRI { awaitingState with answer_wanted := false }
        [ACCEPTED, START_FRI, SUCCESS]) ∧
    ChannelEvent.sendBytes [START_FRI] ∈
      [ChannelEvent.sendBytes [START_FRI], ChannelEvent.notifyOne] :=
  ⟨(C4_no_outstanding_check START_FRI awaitingState
      [ACCEPTED, START_FRI, SUCCESS]).1,
   (C4_no_outstanding_check START_FRI awaitingState
      [ACCEPTED, START_FRI, SUCCESS]).2 true afterStartState
      [ChannelEvent.sendBytes [START_FRI], ChannelEvent.notifyOne]
      (by decide)⟩

end kuka_sunrise_fri_driver

namespace kuka_sunrise_fri_driver

/-- C6: `disconnect` with no open transport returns true and transmits
nothing (empty trace); with an open transport it transmits exactly the
`DISCONNECT` command and waits, and returns true exactly when the recorded
outcome is `Accepted(success)` for `DISCONNECT`, in which case the transport
is closed and released; otherwise it returns false and the transport stays
open (same owned handle). -/
theorem C6_disconnect_correct :
    ∀ (s : FRIConnection) (chunk : List Byte),
      (s.tcp_connection = none → disconnect s chunk = some (true, s, [])) ∧
      (∀ (t : Nat) (b : Bool) (s' : FRIConnection) (evs : List ChannelEvent),
        s.tcp_connection = some t →
        disconnect s chunk = some (b, s', evs) →
        bytesSent evs = [[DISCONNECT]] ∧
        (b = true ↔ (s'.last_command_state = ACCEPTED ∧
                     s'.last_command_id = DISCONNECT ∧
                     s'.last_command_success = SUCCESS)) ∧
        (b = true → s'.tcp_connection = none) ∧
        (b = false → s'.tcp_connection = some t)) := by
  intro s chunk
  constructor
  · intro hn
    unfold disconnect
    rw [hn]
  · intro t b s' evs ht h
    unfold disconnect at h
    rw [ht] at h
    rcases hw : sendCommandAndWait DISCONNECT s chunk with _ | ⟨b2, s2, evs2⟩
    · rw [hw] at h
      exact Option.noConfusion h
    · rw [hw] at h
      dsimp only at h
      obtain ⟨hb2, htcp2, -, -, hbs2, -, -⟩ :=
        sendCommandAndWait_inv _ _ _ _ _ _ hw
      cases b2
      · simp only [Bool.false_eq_true, if_false, Option.some.injEq,
                   Prod.mk.injEq] at h
        rcases h with ⟨rfl, rfl, rfl⟩
        have hassert := hb2.symm
        refine ⟨hbs2, ?_, by simp, fun _ => htcp2.trans ht⟩
        rw [← assertLastCommandSuccess_eq_true_iff _ DISCONNECT, hassert]
      · simp only [eq_self_iff_true, if_true, Option.some.injEq,
                   Prod.mk.injEq] at h
        rcases h with ⟨rfl, rfl, rfl⟩
        obtain ⟨hP1, hP2, hP3⟩ :=
          (assertLastCommandSuccess_eq_true_iff _ DISCONNECT).mp hb2.symm
        refine ⟨?_, by simp [hP1, hP2, hP3], fun _ => rfl, by simp⟩
        simp only [bytesSent] at hbs2 ⊢
        simp [List.filterMap_append, hbs2]

/-- Witness for C6: the no-transport branch at `initState`, and an open
channel whose `DISCONNECT` is answered `Accepted(DISCONNECT, success)`. -/
theorem C6_witness :
    disconnect initState [] = some (true, initState, []) ∧
    (bytesSent [ChannelEvent.sendBytes [DISCONNECT], ChannelEvent.notifyOne,
                ChannelEvent.closeConnection] = [[DISCONNECT]] ∧
     ((true : Bool) = true ↔
        (afterDisconnectState.last_command_state = ACCEPTED ∧
         afterDisconnectState.last_command_id = DISCONNECT ∧
         afterDisconnectState.last_command_success = SUCCESS)) ∧
     ((true : Bool) = true → afterDisconnectState.tcp_connection = none) ∧
     ((true : Bool) = false → afterDisconnectState.tcp_connection = some 0)) :=
  ⟨(C6_disconnect_correct initState []).1 rfl,
   (C6_disconnect_correct connectedState [ACCEPTED, DISCONNECT, SUCCESS]).2
     0 true afterDisconnectState
     [ChannelEvent.sendBytes [DISCONNECT], ChannelEvent.notifyOne,
      ChannelEvent.closeConnection] rfl (by decide)⟩

/-- C7: when opening the transport fails, `connect` returns false, leaves the
channel with no open transport and transmits no command bytes (the trace
holds only the failed open attempt); after a successful open it transmits
exactly the `CONNECT` command and waits, returning true exactly when the
recorded outcome is `Accepted(success)` for `CONNECT`. -/
theorem C7_connect_failure_and_success :
    ∀ (server_addr : Nat) (server_port : Int) (s : FRIConnection)
      (chunk : List Byte),
      (connect server_addr server_port s none chunk =
         some (false, { s with tcp_connection := none },
               [ChannelEvent.openAttempt server_addr server_port]) ∧
       bytesSent [ChannelEvent.openAttempt server_addr server_port] = []) ∧
      ∀ (t : Nat) (b : Bool) (s' : FRIConnection) (evs : List ChannelEvent),
        connect server_addr server_port s (some t) chunk = some (b, s', evs) →
        bytesSent evs = [[CONNECT]] ∧
        (b = true ↔ (s'.last_command_state = ACCEPTED ∧
                     s'.last_command_id = CONNECT ∧
                     s'.last_command_success = SUCCESS)) := by
  intro a p s chunk
  refine ⟨⟨rfl, by simp [bytesSent]⟩, ?_⟩
  intro t b s' evs h
  unfold connect at h
  dsimp only [isConnected, Option.isSome_some, if_true] at h
  rcases hw : sendCommandAndWait CONNECT { s with tcp_connection := some t }
      chunk with _ | ⟨b2, s2, evs2⟩
  · rw [hw] at h
    exact Option.noConfusion h
  · rw [hw] at h
    dsimp only at h
    simp only [Option.some.injEq, Prod.mk.injEq] at h
    rcases h with ⟨rfl, rfl, rfl⟩
    obtain ⟨hb2, -, -, -, hbs2, -, -⟩ := sendCommandAndWait_inv _ _ _ _ _ _ hw
    constructor
    · simp only [bytesSent] at hbs2 ⊢
      simp [List.filterMap_cons, hbs2]
    · rw [hb2]
      exact assertLastCommandSuccess_eq_true_iff _ CONNECT

/-- Witness for C7: a failed open from `initState` (no bytes sent), and a
successful open answered `Accepted(CONNECT, success)`. -/
theorem C7_witness :
    (connect 1 30200 initState none [] =
       some (false, { initState with tcp_connection := none },
             [ChannelEvent.openAttempt 1 30200]) ∧
     bytesSent [ChannelEvent.openAttempt 1 30200] = []) ∧
    (bytesSent [ChannelEvent.openAttempt 1 30200,
                ChannelEvent.sendBytes [CONNECT], ChannelEvent.notifyOne] =
       [[CONNECT]] ∧
     ((true : Bool) = true ↔
        (afterConnectState.last_command_state = ACCEPTED ∧
         afterConnectState.last_command_id = CONNECT ∧
         afterConnectState.last_command_success = SUCCESS))) :=
  ⟨(C7_connect_failure_and_success 1 30200 initState []).1,
   (C7_connect_failure_and_success 1 30200 initState
       [ACCEPTED, CONNECT, SUCCESS]).2 0 true afterConnectState
     [ChannelEvent.openAttempt 1 30200, ChannelEvent.sendBytes [CONNECT],
      ChannelEvent.notifyOne] (by decide)⟩

/-- C9: on a connection-lost notification the channel invokes the connect
path exactly once, with the same address and port it was notified with (the
invocation list is the singleton), and whatever the attempt's outcome, the
run makes exactly one transport open attempt, to that same address and port;
no further attempt happens within this component. -/
theorem C9_single_reconnect :
    ∀ (server_addr : Nat) (server_port : Int) (s : FRIConnection)
      (openResult : Option Nat) (chunk : List Byte),
      (connectionLostCallback server_addr server_port s openResult chunk).1 =
        [(server_addr, server_port)] ∧
      ∀ (b : Bool) (s' : FRIConnection) (evs : List ChannelEvent),
        (connectionLostCallback server_addr server_port s openResult chunk).2
            = some (b, s', evs) →
        openAttempts evs = [(server_addr, server_port)] := by
  intro a p s o chunk
  refine ⟨rfl, ?_⟩
  intro b s' evs h
  dsimp only [connectionLostCallback] at h
  rcases o with _ | t
  · simp only [connect, Option.some.injEq, Prod.mk.injEq] at h
    rcases h with ⟨-, -, rfl⟩
    simp [openAttempts]
  · unfold connect at h
    dsimp only [isConnected, Option.isSome_some, if_true] at h
    rcases hw : sendCommandAndWait CONNECT { s with tcp_connection := some t }
        chunk with _ | ⟨b2, s2, evs2⟩
    · rw [hw] at h
      exact Option.noConfusion h
    · rw [hw] at h
      dsimp only at h
      simp only [Option.some.injEq, Prod.mk.injEq] at h
      rcases h with ⟨-, -, rfl⟩
      obtain ⟨-, -, -, -, -, hoa2, -⟩ := sendCommandAndWait_inv _ _ _ _ _ _ hw
      simp only [openAttempts] at hoa2 ⊢
      simp [List.filterMap_cons, hoa2]

/-- Witness for C9: a lost connection at `initState` whose single reconnect
attempt fails to open the transport; still exactly one open attempt with the
notified address and port is made, and no retry. -/
theorem C9_witness :
    (connectionLostCallback 1 30200 initState none []).1 = [(1, 30200)] ∧
    openAttempts [ChannelEvent.openAttempt 1 30200] = [(1, 30200)] :=
  ⟨(C9_single_reconnect 1 30200 initState none []).1,
   (C9_single_reconnect 1 30200 initState none []).2 false
     { initState with tcp_connection := none }
     [ChannelEvent.openAttempt 1 30200] (by decide)⟩

/-- C10: `connect` called while a transport is already open does not fail or
refuse: it behaves exactly as if no transport were open (the old owned
transport is replaced, hence destroyed, without submitting `Disconnect` over
it), the resulting channel owns the new transport, and the only command
transmitted is `CONNECT` (over the new transport). -/
theorem C10_connect_replaces_transport :
    ∀ (server_addr : Nat) (server_port : Int) (s : FRIConnection)
      (t_new : Nat) (chunk : List Byte),
      connect server_addr server_port s (some t_new) chunk =
        connect server_addr server_port
          { s with tcp_connection := none } (some t_new) chunk ∧
      ∀ (b : Bool) (s' : FRIConnection) (evs : List ChannelEvent),
        connect server_addr server_port s (some t_new) chunk =
          some (b, s', evs) →
        s'.tcp_connection = some t_new ∧ bytesSent evs = [[CONNECT]] := by
  intro a p s t chunk
  refine ⟨rfl, ?_⟩
  intro b s' evs h
  unfold connect at h
  dsimp only [isConnected, Option.isSome_some, if_true] at h
  rcases hw : sendCommandAndWait CONNECT { s with tcp_connection := some t }
      chunk with _ | ⟨b2, s2, evs2⟩
  · rw [hw] at h
    exact Option.noConfusion h
  · rw [hw] at h
    dsimp only at h
    simp only [Option.some.injEq, Prod.mk.injEq] at h
    rcases h with ⟨-, rfl, rfl⟩
    obtain ⟨-, htcp2, -, -, hbs2, -, -⟩ := sendCommandAndWait_inv _ _ _ _ _ _ hw
    constructor
    · simpa using htcp2
    · simp only [bytesSent] at hbs2 ⊢
      simp [List.filterMap_cons, hbs2]

/-- Witness for C10: `connect` on a channel that already owns transport 0
opens transport 5, submits only `CONNECT` over it (no `Disconnect`), and the
channel ends up owning transport 5 even though the command was rejected. -/
theorem C10_witness :
    connect 1 30200 connectedState (some 5) [REJECTED, CONNECT] =
      connect 1 30200 { connectedState with tcp_connection := none }
        (some 5) [REJECTED, CONNECT] ∧
    (rejectedConnectState.tcp_connection = some 5 ∧
     bytesSent [ChannelEvent.openAttempt 1 30200,
                ChannelEvent.sendBytes [CONNECT], ChannelEvent.notifyOne] =
       [[CONNECT]]) :=
  ⟨(C10_connect_replaces_transport 1 30200 connectedState 5
      [REJECTED, CONNECT]).1,
   (C10_connect_replaces_transport 1 30200 connectedState 5
      [REJECTED, CONNECT]).2 false rejectedConnectState
     [ChannelEvent.openAttempt 1 30200, ChannelEvent.sendBytes [CONNECT],
      ChannelEvent.notifyOne] (by decide)⟩

end kuka_sunrise_fri_driver

namespace kuka_sunrise_fri_driver

/-- Counterexample to C8 as stated: on an empty received chunk the handler
returns before the switch: nothing is recorded (the state — including an
awaiting channel's clear answer-received flag and a last-outcome state that
is not `UNKNOWN` — is unchanged) and no notification is emitted, while the
claim requires recording `Unrecognized`, setting the flag and notifying. -/
theorem C8_counterexample_empty_chunk :
    handleReceivedTCPData awaitingState [] = some (awaitingState, []) ∧
    awaitingState.answer_received = false ∧
    awaitingState.last_command_state ≠ UNKNOWN := by
  decide

/-- C8 as amended: for every non-empty chunk whose first byte is none of the
five known outcome tags, the handler records `UNKNOWN` (Unrecognized), sets
the answer-received flag and notifies the waiting thread; an empty chunk is
ignored entirely — no outcome recorded, no flag set, no notification. (Short
chunks that do start with the `ACCEPTED`/`REJECTED` tag are not classified
`Unrecognized` but read out of bounds; see the C2 analysis.) -/
theorem C8_unknown_tag_unrecognized :
    ∀ (s : FRIConnection) (tag : Byte) (rest : List Byte),
      (tag ≠ ACCEPTED ∧ tag ≠ REJECTED ∧ tag ≠ UNKNOWN ∧
       tag ≠ ERROR_CONTROL_ENDED ∧ tag ≠ ERROR_FRI_ENDED →
        handleReceivedTCPData s (tag :: rest) =
          some ({ s with last_command_state := UNKNOWN,
                         answer_received := true },
                [ChannelEvent.notifyOne])) ∧
      handleReceivedTCPData s [] = some (s, []) := by
  intro s tag rest
  constructor
  · rintro ⟨h1, h2, h3, h4, h5⟩
    simp [handleReceivedTCPData, h1, h2, h3, h4, h5]
  · rfl

/-- Witness for C8 as amended: byte 99 is none of the five tags; the chunk
`[99]` is classified Unrecognized with notification, the empty chunk is
dropped. -/
theorem C8_witness :
    handleReceivedTCPData initState [99] =
      some ({ initState with last_command_state := UNKNOWN,
                             answer_received := true },
            [ChannelEvent.notifyOne]) ∧
    handleReceivedTCPData initState [] = some (initState, []) :=
  ⟨(C8_unknown_tag_unrecognized initState 99 []).1 (by decide),
   (C8_unknown_tag_unrecognized initState 99 []).2⟩

end kuka_sunrise_fri_driver

namespace kuka.rsi

/-- C5: over any sequence of arrivals at an initialized server, the receive
loop invokes the callback exactly once per arrival without a transport-level
error and zero times per erroring arrival (so the total callback count equals
the number of error-free arrivals), and the handling of every single arrival
— error-free or erroring — ends by re-arming the asynchronous receive, which
is why arrival k+1 is processed regardless of arrival k. -/
theorem C5_receive_loop_callbacks_and_rearm :
    ∀ (consumer : Nat → List Nat → List Nat) (arrivals : List Arrival),
      ((runServer consumer arrivals).filter isCallbackInvocation).length =
        (arrivals.filter Arrival.isOk).length ∧
      ∀ a : Arrival,
        ((receiveCallback consumer a).filter isCallbackInvocation).length =
          (if a.isOk then 1 else 0) ∧
        (receiveCallback consumer a).getLast? = some ServerEvent.rearm := by
  intro consumer arrivals
  constructor
  · induction arrivals with
    | nil => rfl
    | cons a rest ih =>
      cases a <;>
        simp [runServer, receiveCallback, isCallbackInvocation, Arrival.isOk,
              List.filter_append, ih]
  · intro a
    cases a <;>
      simp [receiveCallback, isCallbackInvocation, Arrival.isOk, List.getLast?]

end kuka.rsi
